import Mathlib

/-!
Verification model of the Simbody `Visualizer` frame-delivery scheduler
(`Visualization/include/simbody/internal/Visualizer.h`).  The implementation
translation unit is not part of the available sources, so the scheduler's
behavior is modelled from the documented contract in `Visualizer.h` together
with the specification; real time and simulated time are rational numbers.
-/

namespace SimbodyViz

/-- A simulation frame: a simulated timestamp paired with an opaque snapshot
handle (the `State` is opaque to the scheduler). -/
structure Frame where
  simTime : ℚ
  snapshot : ℕ
deriving DecidableEq, Repr

/-- Operating modes of the Visualizer (`Visualizer::Mode`). -/
inductive Mode where
  | PassThrough
  | Sampling
  | RealTime
deriving DecidableEq, Repr

/-- Modelled from the spec: the Schedule State of the Scheduler Core
(the `VisualizerRep` implementation is not among the sources).  `none` in
`frameRate` and `bufferLengthSec` is the "use the default" sentinel exposed
as 0 (resp. a negative number) in the interface. -/
structure ScheduleState where
  mode : Mode
  frameRate : Option ℚ
  realTimeScale : ℚ
  bufferLengthSec : Option ℚ
  nextSampleRealTime : ℚ
  lastRenderRealTime : Option ℚ
  nextFrameSimTime : Option ℚ
  anchorReal : ℚ
  anchorSim : ℚ
  buffer : List Frame
  numReported : ℕ
  numRendered : ℕ
  numDropped : ℕ
deriving DecidableEq, Repr

/-- Default frame rate per mode: 30 frames/sec for RealTime and Sampling,
`none` (= Infinity, as fast as possible) for PassThrough. -/
def defaultFrameRate : Mode → Option ℚ
  | .PassThrough => none
  | .Sampling => some 30
  | .RealTime => some 30

/-- The frame rate in effect: the explicitly requested one if any, else the
mode-dependent default. -/
def ScheduleState.effectiveFrameRate (s : ScheduleState) : Option ℚ :=
  match s.frameRate with
  | some r => some r
  | none => defaultFrameRate s.mode

/-- `setDesiredFrameRate`: a nonpositive rate returns to the default
behavior ("Set the frame rate to zero to return to the default behavior"). -/
def setDesiredFrameRate (s : ScheduleState) (framesPerSec : ℚ) : ScheduleState :=
  if framesPerSec ≤ 0 then { s with frameRate := none }
  else { s with frameRate := some framesPerSec }

/-- `getDesiredFrameRate`: reports 0 when no explicit rate was requested. -/
def getDesiredFrameRate (s : ScheduleState) : ℚ :=
  (s.frameRate).getD 0

/-- Whether the Visualizer is using its mode-dependent default frame rate. -/
def ScheduleState.usingDefaultFrameRate (s : ScheduleState) : Bool :=
  s.frameRate.isNone

/-- Well-formedness of the stored rate: only positive rates are ever stored
(nonpositive requests select the default sentinel instead). -/
def ScheduleState.rateWF (s : ScheduleState) : Prop :=
  ∀ r : ℚ, s.frameRate = some r → 0 < r

/-- `setRealTimeScale`: zero or a negative value is interpreted as the
default ratio of 1:1. -/
def setRealTimeScale (s : ScheduleState) (simTimePerRealSecond : ℚ) : ScheduleState :=
  if simTimePerRealSecond ≤ 0 then { s with realTimeScale := 1 }
  else { s with realTimeScale := simTimePerRealSecond }

/-- The default desired buffer length: 150 ms. -/
def defaultBufferLengthSec : ℚ := 3 / 20

/-- `setDesiredBufferLengthInSec`: a negative request restores the default
buffer length; zero requests no buffering at all. -/
def setDesiredBufferLengthInSec (s : ScheduleState) (bufferLengthInSec : ℚ) : ScheduleState :=
  if bufferLengthInSec < 0 then { s with bufferLengthSec := none }
  else { s with bufferLengthSec := some bufferLengthInSec }

/-- `getDesiredBufferLengthInSec`: the requested buffer time, or the default
value if none has been requested. -/
def getDesiredBufferLengthInSec (s : ScheduleState) : ℚ :=
  (s.bufferLengthSec).getD defaultBufferLengthSec

/-- `getActualBufferLengthInFrames`: the nearest whole number of frames to the
desired buffer time, at least 1 frame if a nonzero time was asked for, 0 for
an explicitly zero request. -/
def getActualBufferLengthInFrames (s : ScheduleState) : ℕ :=
  match s.effectiveFrameRate with
  | none => 0
  | some rate =>
    let desired := getDesiredBufferLengthInSec s
    if desired ≤ 0 then 0
    else max 1 (round (desired * rate)).toNat

/-- `getActualBufferLengthInSec`: the frame-rounded buffer length in seconds. -/
def getActualBufferLengthInSec (s : ScheduleState) : ℚ :=
  match s.effectiveFrameRate with
  | none => 0
  | some rate => (getActualBufferLengthInFrames s : ℚ) / rate

/-- The initial Schedule State: PassThrough mode, default rate, default
buffer length, scale 1, empty buffer, zeroed statistics. -/
def initialState : ScheduleState :=
  { mode := .PassThrough
    frameRate := none
    realTimeScale := 1
    bufferLengthSec := none
    nextSampleRealTime := 0
    lastRenderRealTime := none
    nextFrameSimTime := none
    anchorReal := 0
    anchorSim := 0
    buffer := []
    numReported := 0
    numRendered := 0
    numDropped := 0 }

/-- The frame rate in effect for the timed modes (whose default is 30). -/
def ScheduleState.rate (s : ScheduleState) : ℚ :=
  (s.effectiveFrameRate).getD 30

/-- Result of one `report` call: the updated Schedule State, the frames it
dispatched to the rendering collaborator (with the real dispatch times), and
the real time at which the call returns to the caller (> `now` means the
caller was blocked). -/
structure ReportResult where
  state : ScheduleState
  dispatched : List (ℚ × Frame)
  returnTime : ℚ
deriving DecidableEq, Repr

/-- `report` in PassThrough mode: every frame is rendered; with a frame rate
in effect the caller is blocked until `1/rate` has elapsed since the previous
render, otherwise the frame is rendered immediately. -/
def reportPassThrough (s : ScheduleState) (now : ℚ) (f : Frame) : ReportResult :=
  let renderTime :=
    match s.effectiveFrameRate, s.lastRenderRealTime with
    | some rate, some last => max now (last + 1 / rate)
    | _, _ => now
  { state := { s with lastRenderRealTime := some renderTime
                      numReported := s.numReported + 1
                      numRendered := s.numRendered + 1 }
    dispatched := [(renderTime, f)]
    returnTime := renderTime }

/-- `report` in Sampling mode: render immediately if the next sample time has
been reached or passed (setting the next sample time one frame interval past
`now`), else ignore the frame and return immediately. -/
def reportSampling (s : ScheduleState) (now : ℚ) (f : Frame) : ReportResult :=
  if s.nextSampleRealTime ≤ now then
    { state := { s with nextSampleRealTime := now + 1 / s.rate
                        numReported := s.numReported + 1
                        numRendered := s.numRendered + 1 }
      dispatched := [(now, f)]
      returnTime := now }
  else
    { state := { s with numReported := s.numReported + 1
                        numDropped := s.numDropped + 1 }
      dispatched := []
      returnTime := now }

/-- RealTime acceptance test: a frame is dropped if it comes too frequently,
i.e.\ before the simulated time of the next scheduled frame; only frames
whose simulated times are at or past a frame time are kept
(`Visualizer.h`: "Frames will be dropped if they come too frequently; only
the ones whose simulated times are at or near a frame time will be
rendered"). -/
def acceptsRT (s : ScheduleState) (f : Frame) : Bool :=
  match s.nextFrameSimTime with
  | none => true
  | some tNext => decide (tNext ≤ f.simTime)

/-- `report` in RealTime mode: an accepted frame is queued in the Frame
Buffer and the next expected frame's simulated time advances by one frame
interval (scaled to simulated time); a frame arriving too frequently is
dropped.  The first frame also sets the (real, simulated) anchor. -/
def reportRealTime (s : ScheduleState) (now : ℚ) (f : Frame) : ReportResult :=
  if acceptsRT s f then
    { state := { s with buffer := s.buffer ++ [f]
                        nextFrameSimTime := some (f.simTime + s.realTimeScale / s.rate)
                        anchorReal := if s.nextFrameSimTime = none then now else s.anchorReal
                        anchorSim := if s.nextFrameSimTime = none then f.simTime else s.anchorSim
                        numReported := s.numReported + 1 }
      dispatched := []
      returnTime := now }
  else
    { state := { s with numReported := s.numReported + 1
                        numDropped := s.numDropped + 1 }
      dispatched := []
      returnTime := now }

/-- `report(state)`: submit a new frame; handling depends on the mode. -/
def report (s : ScheduleState) (now : ℚ) (f : Frame) : ReportResult :=
  match s.mode with
  | .PassThrough => reportPassThrough s now f
  | .Sampling => reportSampling s now f
  | .RealTime => reportRealTime s now f

/-- Target real display time of a frame with simulated time `t`:
`anchorReal + (t - anchorSim) / scale`. -/
def targetRealTime (s : ScheduleState) (t : ℚ) : ℚ :=
  s.anchorReal + (t - s.anchorSim) / s.realTimeScale

/-- One wakeup of the RealTime consumer path at real time `now`: if the head
frame's target real time has arrived, dequeue and dispatch it; a frame whose
target time is more than one frame interval in the past also resets the
anchor to `(now, t)` so subsequent frames resynchronize.  Only RealTime mode
has a consumer; in the other modes this does nothing. -/
def dispatchReady (s : ScheduleState) (now : ℚ) : ScheduleState × List (ℚ × Frame) :=
  if s.mode = Mode.RealTime then
    match s.buffer with
    | [] => (s, [])
    | f :: rest =>
      if targetRealTime s f.simTime ≤ now then
        ({ s with buffer := rest
                  numRendered := s.numRendered + 1
                  anchorReal := if targetRealTime s f.simTime < now - 1 / s.rate then now
                                else s.anchorReal
                  anchorSim := if targetRealTime s f.simTime < now - 1 / s.rate then f.simTime
                               else s.anchorSim },
         [(now, f)])
      else (s, [])
  else (s, [])

/-- `flushFrames()`: returns immediately unless the mode is RealTime and the
buffer is non-empty; otherwise blocks while the buffer drains through its
scheduled dispatch, dispatching every queued frame in order. -/
def flushFrames (s : ScheduleState) (now : ℚ) : ScheduleState × List (ℚ × Frame) :=
  if s.mode = Mode.RealTime ∧ s.buffer ≠ [] then
    ({ s with buffer := [], numRendered := s.numRendered + s.buffer.length },
     s.buffer.map (fun f => (max now (targetRealTime s f.simTime), f)))
  else (s, [])

/-- `drawFrameNow(state)`: draw a frame unconditionally without queuing or
checking the frame rate; only the rendered count changes. -/
def drawFrameNow (s : ScheduleState) (now : ℚ) (f : Frame) : ScheduleState × List (ℚ × Frame) :=
  ({ s with numRendered := s.numRendered + 1 }, [(now, f)])

/-- An event of a scheduler run: a `report` call, a wakeup of the RealTime
consumer path, or a `flushFrames` call, each at a given real time. -/
inductive Ev where
  | rep (now : ℚ) (f : Frame)
  | tick (now : ℚ)
  | flush (now : ℚ)
deriving DecidableEq, Repr

/-- One event step of the scheduler. -/
def step (s : ScheduleState) : Ev → ScheduleState × List (ℚ × Frame)
  | .rep now f => ((report s now f).state, (report s now f).dispatched)
  | .tick now => dispatchReady s now
  | .flush now => flushFrames s now

/-- Run a sequence of events, collecting all dispatched frames in order. -/
def run (s : ScheduleState) : List Ev → ScheduleState × List (ℚ × Frame)
  | [] => (s, [])
  | e :: rest => ((run (step s e).1 rest).1, (step s e).2 ++ (run (step s e).1 rest).2)

/-- The frames submitted via `report` in an event sequence, in order. -/
def reportedFrames : List Ev → List Frame
  | [] => []
  | .rep _ f :: rest => f :: reportedFrames rest
  | .tick _ :: rest => reportedFrames rest
  | .flush _ :: rest => reportedFrames rest

/-- The frames a RealTime run accepts into the Frame Buffer (those not
dropped by the too-frequent rule), in order. -/
def acceptedRT (s : ScheduleState) : List Ev → List Frame
  | [] => []
  | .rep now f :: rest =>
    (if acceptsRT s f then [f] else []) ++ acceptedRT (step s (.rep now f)).1 rest
  | .tick now :: rest => acceptedRT (step s (.tick now)).1 rest
  | .flush now :: rest => acceptedRT (step s (.flush now)).1 rest

/-- Slider state as shown in the GUI: a range and a current value. -/
structure Slider where
  min : ℚ
  max : ℚ
  value : ℚ
deriving DecidableEq, Repr

/-- Modelled from the spec: `setSliderValue` (the GUI side that applies the
message is not among the sources).  An out-of-range value is moved to one of
the extremes rather than rejected. -/
def setSliderValue (sl : Slider) (value : ℚ) : Slider :=
  { sl with value := if value < sl.min then sl.min
                     else if sl.max < value then sl.max
                     else value }

/-- Modelled from the spec: `setSliderRange`.  The slider's current value is
unchanged if it still fits in the new range, otherwise it is moved to the
nearest limit. -/
def setSliderRange (sl : Slider) (newMin newMax : ℚ) : Slider :=
  { min := newMin
    max := newMax
    value := if sl.value < newMin then newMin
             else if newMax < sl.value then newMax
             else sl.value }

@[simp] theorem run_nil (s : ScheduleState) : run s [] = (s, []) := rfl

@[simp] theorem run_cons (s : ScheduleState) (e : Ev) (rest : List Ev) :
    run s (e :: rest) =
      ((run (step s e).1 rest).1, (step s e).2 ++ (run (step s e).1 rest).2) := rfl

@[simp] theorem reportedFrames_nil : reportedFrames [] = [] := rfl

@[simp] theorem reportedFrames_rep (now : ℚ) (f : Frame) (rest : List Ev) :
    reportedFrames (.rep now f :: rest) = f :: reportedFrames rest := rfl

@[simp] theorem reportedFrames_tick (now : ℚ) (rest : List Ev) :
    reportedFrames (.tick now :: rest) = reportedFrames rest := rfl

@[simp] theorem reportedFrames_flush (now : ℚ) (rest : List Ev) :
    reportedFrames (.flush now :: rest) = reportedFrames rest := rfl

theorem acceptedRT_nil (s : ScheduleState) : acceptedRT s [] = [] := rfl

theorem acceptedRT_rep (s : ScheduleState) (now : ℚ) (f : Frame) (rest : List Ev) :
    acceptedRT s (.rep now f :: rest) =
      (if acceptsRT s f then [f] else []) ++ acceptedRT (step s (.rep now f)).1 rest := rfl

theorem acceptedRT_tick (s : ScheduleState) (now : ℚ) (rest : List Ev) :
    acceptedRT s (.tick now :: rest) = acceptedRT (step s (.tick now)).1 rest := rfl

theorem acceptedRT_flush (s : ScheduleState) (now : ℚ) (rest : List Ev) :
    acceptedRT s (.flush now :: rest) = acceptedRT (step s (.flush now)).1 rest := rfl

/-- `report` dispatches to the Sampling handler in Sampling mode. -/
theorem report_sampling (s : ScheduleState) (now : ℚ) (f : Frame)
    (hm : s.mode = Mode.Sampling) : report s now f = reportSampling s now f := by
  unfold report; rw [hm]

/-- `report` dispatches to the PassThrough handler in PassThrough mode. -/
theorem report_passThrough (s : ScheduleState) (now : ℚ) (f : Frame)
    (hm : s.mode = Mode.PassThrough) : report s now f = reportPassThrough s now f := by
  unfold report; rw [hm]

/-- `report` dispatches to the RealTime handler in RealTime mode. -/
theorem report_realTime (s : ScheduleState) (now : ℚ) (f : Frame)
    (hm : s.mode = Mode.RealTime) : report s now f = reportRealTime s now f := by
  unfold report; rw [hm]

/-- A consumer wakeup does nothing outside RealTime mode. -/
theorem dispatchReady_of_ne (s : ScheduleState) (now : ℚ) (hm : s.mode ≠ Mode.RealTime) :
    dispatchReady s now = (s, []) := by
  unfold dispatchReady; rw [if_neg hm]

/-- `flushFrames` does nothing outside RealTime mode. -/
theorem flushFrames_of_ne (s : ScheduleState) (now : ℚ) (hm : s.mode ≠ Mode.RealTime) :
    flushFrames s now = (s, []) := by
  unfold flushFrames
  rw [if_neg]
  rintro ⟨h1, _⟩
  exact hm h1

/-- `flushFrames` does nothing when the buffer is already empty. -/
theorem flushFrames_of_empty (s : ScheduleState) (now : ℚ) (hb : s.buffer = []) :
    flushFrames s now = (s, []) := by
  unfold flushFrames
  rw [if_neg]
  rintro ⟨_, h2⟩
  exact h2 hb

/-- In PassThrough and Sampling mode the dispatched frames form a subsequence
of the reported frames: consumer wakeups and flushes dispatch nothing there,
and a `report` dispatches either the reported frame or nothing. -/
theorem dispatched_sublist_of_immediate (s : ScheduleState) (evs : List Ev)
    (hm : s.mode ≠ Mode.RealTime) :
    List.Sublist ((run s evs).2.map Prod.snd) (reportedFrames evs) := by
  induction evs generalizing s with
  | nil => simp
  | cons e rest ih =>
    cases e with
    | rep now f =>
      rw [run_cons, reportedFrames_rep]
      show List.Sublist
        (((report s now f).dispatched ++ (run (report s now f).state rest).2).map Prod.snd) _
      cases hmode : s.mode with
      | RealTime => exact absurd hmode hm
      | PassThrough =>
        rw [report_passThrough s now f hmode]
        unfold reportPassThrough
        simp only [List.map_append, List.map_cons, List.map_nil, List.cons_append,
          List.nil_append]
        exact List.Sublist.cons₂ _ (ih _ hm)
      | Sampling =>
        rw [report_sampling s now f hmode]
        unfold reportSampling
        split
        · simp only [List.map_append, List.map_cons, List.map_nil, List.cons_append,
            List.nil_append]
          exact List.Sublist.cons₂ _ (ih _ hm)
        · simp only [List.map_append, List.map_nil, List.nil_append]
          refine List.Sublist.cons f (ih _ ?_)
          exact hm
    | tick now =>
      rw [run_cons, reportedFrames_tick]
      show List.Sublist (((dispatchReady s now).2 ++ (run (dispatchReady s now).1 rest).2).map
        Prod.snd) _
      rw [dispatchReady_of_ne s now hm]
      simpa using ih s hm
    | flush now =>
      rw [run_cons, reportedFrames_flush]
      show List.Sublist (((flushFrames s now).2 ++ (run (flushFrames s now).1 rest).2).map
        Prod.snd) _
      rw [flushFrames_of_ne s now hm]
      simpa using ih s hm

/-- A consumer wakeup with an empty buffer does nothing. -/
theorem dispatchReady_nil (s : ScheduleState) (now : ℚ)
    (hm : s.mode = Mode.RealTime) (hb : s.buffer = []) :
    dispatchReady s now = (s, []) := by
  unfold dispatchReady
  rw [if_pos hm, hb]

/-- A consumer wakeup with a frame at the buffer head dispatches it once its
target real time has arrived. -/
theorem dispatchReady_cons (s : ScheduleState) (now : ℚ) (f : Frame) (bs : List Frame)
    (hm : s.mode = Mode.RealTime) (hb : s.buffer = f :: bs) :
    dispatchReady s now =
      if targetRealTime s f.simTime ≤ now then
        ({ s with buffer := bs
                  numRendered := s.numRendered + 1
                  anchorReal := if targetRealTime s f.simTime < now - 1 / s.rate then now
                                else s.anchorReal
                  anchorSim := if targetRealTime s f.simTime < now - 1 / s.rate then f.simTime
                               else s.anchorSim },
         [(now, f)])
      else (s, []) := by
  unfold dispatchReady
  rw [if_pos hm, hb]

theorem step_rep (s : ScheduleState) (now : ℚ) (f : Frame) :
    step s (.rep now f) = ((report s now f).state, (report s now f).dispatched) := rfl

theorem step_tick (s : ScheduleState) (now : ℚ) :
    step s (.tick now) = dispatchReady s now := rfl

theorem step_flush (s : ScheduleState) (now : ℚ) :
    step s (.flush now) = flushFrames s now := rfl

/-- In RealTime mode the dispatched frames form a subsequence of the initial
buffer contents followed by the reported frames: the Frame Buffer is FIFO
(enqueue at the tail, dispatch from the head) and never reorders. -/
theorem dispatched_sublist_of_realTime (s : ScheduleState) (evs : List Ev)
    (hm : s.mode = Mode.RealTime) :
    List.Sublist ((run s evs).2.map Prod.snd) (s.buffer ++ reportedFrames evs) := by
  induction evs generalizing s with
  | nil => simp
  | cons e rest ih =>
    cases e with
    | rep now f =>
      rw [run_cons, reportedFrames_rep, step_rep, report_realTime s now f hm]
      unfold reportRealTime
      split
      · simp only [List.map_append, List.map_nil, List.nil_append]
        rw [show s.buffer ++ f :: reportedFrames rest =
              (s.buffer ++ [f]) ++ reportedFrames rest by simp]
        refine ih _ ?_
        exact hm
      · simp only [List.map_append, List.map_nil, List.nil_append]
        refine List.Sublist.trans (ih _ ?_) ((List.sublist_cons_self f _).append_left s.buffer)
        exact hm
    | tick now =>
      rw [run_cons, reportedFrames_tick, step_tick]
      cases hbuf : s.buffer with
      | nil =>
        rw [dispatchReady_nil s now hm hbuf]
        have h := ih s hm
        rw [hbuf] at h
        exact h
      | cons f bs =>
        rw [dispatchReady_cons s now f bs hm hbuf]
        split
        · simp only [List.map_append, List.map_cons, List.map_nil, List.cons_append,
            List.nil_append]
          refine List.Sublist.cons₂ f ?_
          refine ih _ ?_
          exact hm
        · have h := ih s hm
          rw [hbuf] at h
          exact h
    | flush now =>
      rw [run_cons, reportedFrames_flush, step_flush]
      unfold flushFrames
      split
      · simp only [List.map_append, List.map_map]
        rw [show (Prod.snd ∘ fun f : Frame => (max now (targetRealTime s f.simTime), f)) = id
              from rfl, List.map_id]
        refine List.Sublist.append_left ?_ s.buffer
        refine ih _ ?_
        exact hm
      · exact ih s hm

/-- RealTime frame conservation: over any run, the dispatched frames followed
by the frames still in the buffer are exactly the initial buffer contents
followed by the accepted frames, in order: accepted frames are never lost and
never reordered. -/
theorem realTime_conservation (s : ScheduleState) (evs : List Ev)
    (hm : s.mode = Mode.RealTime) :
    (run s evs).2.map Prod.snd ++ (run s evs).1.buffer = s.buffer ++ acceptedRT s evs := by
  induction evs generalizing s with
  | nil => simp [acceptedRT_nil]
  | cons e rest ih =>
    cases e with
    | rep now f =>
      rw [run_cons, acceptedRT_rep, step_rep, report_realTime s now f hm]
      unfold reportRealTime
      split
      · simp only [List.map_append, List.map_nil, List.nil_append]
        refine Eq.trans (ih _ ?_) ?_
        · exact hm
        · simp [List.append_assoc]
      · simp only [List.map_append, List.map_nil, List.nil_append]
        refine Eq.trans (ih _ ?_) ?_
        · exact hm
        · rfl
    | tick now =>
      rw [run_cons, acceptedRT_tick, step_tick]
      cases hbuf : s.buffer with
      | nil =>
        rw [dispatchReady_nil s now hm hbuf]
        have h := ih s hm
        rw [hbuf] at h
        simpa using h
      | cons f bs =>
        rw [dispatchReady_cons s now f bs hm hbuf]
        split
        · simp only [List.map_append, List.map_cons, List.map_nil, List.cons_append,
            List.nil_append]
          refine congrArg (List.cons f) ?_
          refine Eq.trans (ih _ ?_) ?_
          · exact hm
          · rfl
        · have h := ih s hm
          rw [hbuf] at h
          exact h
    | flush now =>
      rw [run_cons, acceptedRT_flush, step_flush]
      unfold flushFrames
      split
      · simp only [List.map_append, List.map_map]
        rw [show (Prod.snd ∘ fun f : Frame => (max now (targetRealTime s f.simTime), f)) = id
              from rfl, List.map_id, List.append_assoc]
        refine congrArg (fun x => s.buffer ++ x) ?_
        refine Eq.trans (ih _ ?_) ?_
        · exact hm
        · rfl
      · exact ih s hm

/-- In PassThrough mode every reported frame is dispatched, in order, and the
buffer is never touched: no drops, no buffering. -/
theorem passThrough_dispatches_all (s : ScheduleState) (evs : List Ev)
    (hm : s.mode = Mode.PassThrough) :
    (run s evs).2.map Prod.snd = reportedFrames evs ∧ (run s evs).1.buffer = s.buffer := by
  induction evs generalizing s with
  | nil => simp
  | cons e rest ih =>
    have hne : s.mode ≠ Mode.RealTime := by rw [hm]; intro h; cases h
    cases e with
    | rep now f =>
      rw [run_cons, reportedFrames_rep, step_rep, report_passThrough s now f hm]
      unfold reportPassThrough
      simp only [List.map_append, List.map_cons, List.map_nil, List.cons_append,
        List.nil_append]
      constructor
      · refine congrArg (List.cons f) ?_
        refine (ih _ ?_).1
        exact hm
      · refine Eq.trans ((ih _ ?_).2) ?_
        · exact hm
        · rfl
    | tick now =>
      rw [run_cons, reportedFrames_tick, step_tick, dispatchReady_of_ne s now hne]
      simpa using ih s hm
    | flush now =>
      rw [run_cons, reportedFrames_flush, step_flush, flushFrames_of_ne s now hne]
      simpa using ih s hm

/-- In PassThrough mode with a frame rate `R` in effect, consecutive
dispatched frames are separated by at least `1/R` real seconds, and every
dispatch happens at least `1/R` after the previous render recorded in the
Schedule State. -/
theorem passThrough_spacing (s : ScheduleState) (R : ℚ) (evs : List Ev)
    (hm : s.mode = Mode.PassThrough) (hr : s.effectiveFrameRate = some R) (hR : 0 < R) :
    List.Chain' (fun a b : ℚ × Frame => a.1 + 1 / R ≤ b.1) ((run s evs).2) ∧
    (∀ last, s.lastRenderRealTime = some last →
      ∀ p ∈ (run s evs).2, last + 1 / R ≤ p.1) := by
  induction evs generalizing s with
  | nil => simp
  | cons e rest ih =>
    have hne : s.mode ≠ Mode.RealTime := by rw [hm]; intro h; cases h
    cases e with
    | rep now f =>
      rw [run_cons, step_rep, report_passThrough s now f hm]
      unfold reportPassThrough
      rw [hr]
      cases hl : s.lastRenderRealTime with
      | none =>
        simp only [List.cons_append, List.nil_append]
        have hihc := ih { s with
          lastRenderRealTime := some now
          numReported := s.numReported + 1
          numRendered := s.numRendered + 1 } hm hr
        constructor
        · refine List.chain'_cons'.mpr ⟨?_, hihc.1⟩
          intro y hy
          have hy' := List.mem_of_mem_head? hy
          exact hihc.2 now rfl y hy'
        · intro last hlast
          simp at hlast
      | some last0 =>
        simp only [List.cons_append, List.nil_append]
        have hihc := ih { s with
          lastRenderRealTime := some (max now (last0 + 1 / R))
          numReported := s.numReported + 1
          numRendered := s.numRendered + 1 } hm hr
        constructor
        · refine List.chain'_cons'.mpr ⟨?_, hihc.1⟩
          intro y hy
          have hy' := List.mem_of_mem_head? hy
          exact hihc.2 (max now (last0 + 1 / R)) rfl y hy'
        · intro last hlast p hp
          injection hlast with hlast
          subst hlast
          rcases List.mem_cons.mp hp with hp | hp
          · subst hp
            exact le_max_right _ _
          · have h1 := hihc.2 (max now (last0 + 1 / R)) rfl p hp
            have h2 : (0 : ℚ) < 1 / R := by positivity
            have h3 : last0 + 1 / R ≤ max now (last0 + 1 / R) := le_max_right _ _
            linarith
    | tick now =>
      rw [run_cons, step_tick, dispatchReady_of_ne s now hne]
      simpa using ih s hm hr
    | flush now =>
      rw [run_cons, step_flush, flushFrames_of_ne s now hne]
      simpa using ih s hm hr

/-- C1: For every sequence of frames dispatched to the rendering
collaborator, in every mode, given that the reported frames carry
non-decreasing simulated timestamps and the buffer starts empty, the
simulated timestamps of the dispatched frames are in non-decreasing order:
the Frame Buffer never reorders queued frames. -/
theorem claim_C1 (s : ScheduleState) (evs : List Ev) (hb : s.buffer = [])
    (hsorted : ((reportedFrames evs).map Frame.simTime).Pairwise (· ≤ ·)) :
    (((run s evs).2.map Prod.snd).map Frame.simTime).Pairwise (· ≤ ·) := by
  have hsub : List.Sublist ((run s evs).2.map Prod.snd) (reportedFrames evs) := by
    by_cases hm : s.mode = Mode.RealTime
    · have h := dispatched_sublist_of_realTime s evs hm
      rwa [hb, List.nil_append] at h
    · exact dispatched_sublist_of_immediate s evs hm
  exact hsorted.sublist (hsub.map Frame.simTime)

/-- Witness for C1 at a concrete RealTime run. -/
theorem claim_C1_witness :
    ({ initialState with mode := Mode.RealTime } : ScheduleState).buffer = [] ∧
    ((reportedFrames [Ev.rep 0 ⟨0, 1⟩, Ev.tick (1/10) , Ev.rep 1 ⟨1, 2⟩, Ev.flush 2]).map
      Frame.simTime).Pairwise (· ≤ ·) ∧
    (((run { initialState with mode := Mode.RealTime }
        [Ev.rep 0 ⟨0, 1⟩, Ev.tick (1/10) , Ev.rep 1 ⟨1, 2⟩, Ev.flush 2]).2.map Prod.snd).map
      Frame.simTime).Pairwise (· ≤ ·) :=
  ⟨rfl, by norm_num [List.pairwise_cons],
   claim_C1 _ _ rfl (by norm_num [List.pairwise_cons])⟩

/-- C2: In Sampling mode, a `report` at a real time that has reached or
passed the next sample time renders the frame immediately and sets the next
sample time to now + 1/rate; otherwise the frame is dropped and `report`
returns immediately, at the current time, without blocking the caller. -/
theorem claim_C2 (s : ScheduleState) (now : ℚ) (f : Frame) (hm : s.mode = Mode.Sampling) :
    (s.nextSampleRealTime ≤ now →
      (report s now f).dispatched = [(now, f)] ∧
      (report s now f).state.nextSampleRealTime = now + 1 / s.rate ∧
      (report s now f).returnTime = now ∧
      (report s now f).state.numRendered = s.numRendered + 1) ∧
    (¬ s.nextSampleRealTime ≤ now →
      (report s now f).dispatched = [] ∧
      (report s now f).returnTime = now ∧
      (report s now f).state.numDropped = s.numDropped + 1 ∧
      (report s now f).state.buffer = s.buffer) := by
  rw [report_sampling s now f hm]
  unfold reportSampling
  constructor
  · intro h
    rw [if_pos h]
    exact ⟨rfl, rfl, rfl, rfl⟩
  · intro h
    rw [if_neg h]
    exact ⟨rfl, rfl, rfl, rfl⟩

/-- Witness for C2: a render at a reached sample time, a drop before it. -/
theorem claim_C2_witness :
    (report { initialState with mode := Mode.Sampling } 0 ⟨0, 7⟩).dispatched = [(0, ⟨0, 7⟩)] ∧
    (report { initialState with mode := Mode.Sampling, nextSampleRealTime := 1 } 0
      ⟨0, 8⟩).dispatched = [] :=
  ⟨((claim_C2 { initialState with mode := Mode.Sampling } 0 ⟨0, 7⟩ rfl).1
      (by norm_num [initialState])).1,
   ((claim_C2 { initialState with mode := Mode.Sampling, nextSampleRealTime := 1 } 0 ⟨0, 8⟩
      rfl).2 (by norm_num)).1⟩

/-- C4: In PassThrough mode every frame passed to `report` is rendered, in
order, with no buffering and no drops; with a desired rate R in effect,
consecutive renders are at least 1/R real-seconds apart and a `report`
blocks until one interval past the previous render before rendering; with no
rate set the frame is rendered immediately at the current time with no
artificial delay. -/
theorem claim_C4 (s : ScheduleState) (evs : List Ev) (R now : ℚ) (f : Frame)
    (hm : s.mode = Mode.PassThrough) (hR : 0 < R) :
    ((run s evs).2.map Prod.snd = reportedFrames evs ∧ (run s evs).1.buffer = s.buffer) ∧
    (s.effectiveFrameRate = some R →
      List.Chain' (fun a b : ℚ × Frame => a.1 + 1 / R ≤ b.1) ((run s evs).2) ∧
      (∀ last, s.lastRenderRealTime = some last →
        (report s now f).dispatched = [(max now (last + 1 / R), f)] ∧
        (report s now f).returnTime = max now (last + 1 / R))) ∧
    (s.effectiveFrameRate = none →
      (report s now f).dispatched = [(now, f)] ∧ (report s now f).returnTime = now) := by
  refine ⟨passThrough_dispatches_all s evs hm, ?_, ?_⟩
  · intro hr
    refine ⟨(passThrough_spacing s R evs hm hr hR).1, ?_⟩
    intro last hlast
    rw [report_passThrough s now f hm]
    unfold reportPassThrough
    rw [hr, hlast]
    exact ⟨rfl, rfl⟩
  · intro hr
    rw [report_passThrough s now f hm]
    unfold reportPassThrough
    rw [hr]
    exact ⟨rfl, rfl⟩

/-- Witness for C4 at a concrete PassThrough run with rate 10. -/
theorem claim_C4_witness :
    (0 : ℚ) < 10 ∧
    ({ initialState with frameRate := some 10 } : ScheduleState).mode = Mode.PassThrough ∧
    (run { initialState with frameRate := some 10 }
        [Ev.rep 0 ⟨0, 1⟩, Ev.rep 0 ⟨1, 2⟩]).2.map Prod.snd
      = reportedFrames [Ev.rep 0 ⟨0, 1⟩, Ev.rep 0 ⟨1, 2⟩] :=
  ⟨by norm_num, rfl,
   (claim_C4 { initialState with frameRate := some 10 } [Ev.rep 0 ⟨0, 1⟩, Ev.rep 0 ⟨1, 2⟩]
      10 0 ⟨2, 3⟩ rfl (by norm_num)).1.1⟩

/-- C7: `drawFrameNow` dispatches the frame unconditionally and
synchronously, bypassing mode policy, buffering and rate timing; the
Schedule State's timing anchors and the statistics used for rate decisions
are unchanged, and only the rendered counter is incremented. -/
theorem claim_C7 (s : ScheduleState) (now : ℚ) (f : Frame) :
    (drawFrameNow s now f).2 = [(now, f)] ∧
    (drawFrameNow s now f).1.numRendered = s.numRendered + 1 ∧
    (drawFrameNow s now f).1.mode = s.mode ∧
    (drawFrameNow s now f).1.anchorReal = s.anchorReal ∧
    (drawFrameNow s now f).1.anchorSim = s.anchorSim ∧
    (drawFrameNow s now f).1.nextSampleRealTime = s.nextSampleRealTime ∧
    (drawFrameNow s now f).1.lastRenderRealTime = s.lastRenderRealTime ∧
    (drawFrameNow s now f).1.nextFrameSimTime = s.nextFrameSimTime ∧
    (drawFrameNow s now f).1.buffer = s.buffer ∧
    (drawFrameNow s now f).1.numReported = s.numReported ∧
    (drawFrameNow s now f).1.numDropped = s.numDropped :=
  ⟨rfl, rfl, rfl, rfl, rfl, rfl, rfl, rfl, rfl, rfl, rfl⟩

/-- C8: setting a slider value outside the current range is not rejected:
the effective value is clamped to the nearest bound (and an in-range value is
taken as is); in particular after setSliderRange to [0, 10], setting 15
yields 10. -/
theorem claim_C8 (sl : Slider) (v : ℚ) (h : sl.min ≤ sl.max) :
    (sl.min ≤ (setSliderValue sl v).value ∧ (setSliderValue sl v).value ≤ sl.max) ∧
    (sl.max < v → (setSliderValue sl v).value = sl.max) ∧
    (v < sl.min → (setSliderValue sl v).value = sl.min) ∧
    (sl.min ≤ v → v ≤ sl.max → (setSliderValue sl v).value = v) ∧
    (setSliderValue (setSliderRange sl 0 10) 15).value = 10 := by
  simp only [setSliderValue, setSliderRange]
  refine ⟨⟨?_, ?_⟩, ?_, ?_, ?_, ?_⟩
  · split_ifs with hc1 hc2 <;> linarith
  · split_ifs with hc1 hc2 <;> linarith
  · intro hv; split_ifs with hc1 hc2 <;> linarith
  · intro hv; split_ifs with hc1 hc2 <;> linarith
  · intro h1 h2; split_ifs with hc1 hc2 <;> linarith
  · norm_num

/-- Witness for C8 at a concrete slider. -/
theorem claim_C8_witness :
    ((⟨0, 10, 5⟩ : Slider).min ≤ (⟨0, 10, 5⟩ : Slider).max) ∧
    (setSliderValue (setSliderRange ⟨0, 10, 5⟩ 0 10) 15).value = 10 :=
  ⟨by norm_num, (claim_C8 ⟨0, 10, 5⟩ 15 (by norm_num)).2.2.2.2⟩

/-- C9: setDesiredFrameRate 0 restores the mode-dependent default rate
(30/sec for RealTime and Sampling, unbounded for PassThrough), and
getDesiredFrameRate returns 0 exactly when the default rate is in use. -/
theorem claim_C9 (s : ScheduleState) (hw : s.rateWF) :
    (setDesiredFrameRate s 0).effectiveFrameRate = defaultFrameRate s.mode ∧
    (s.mode = Mode.RealTime → (setDesiredFrameRate s 0).effectiveFrameRate = some 30) ∧
    (s.mode = Mode.Sampling → (setDesiredFrameRate s 0).effectiveFrameRate = some 30) ∧
    (s.mode = Mode.PassThrough → (setDesiredFrameRate s 0).effectiveFrameRate = none) ∧
    (getDesiredFrameRate s = 0 ↔ s.usingDefaultFrameRate = true) := by
  have h1 : (setDesiredFrameRate s 0).effectiveFrameRate = defaultFrameRate s.mode := by
    unfold setDesiredFrameRate
    rw [if_pos le_rfl]
    rfl
  refine ⟨h1, ?_, ?_, ?_, ?_⟩
  · intro hmode; rw [h1, hmode]; rfl
  · intro hmode; rw [h1, hmode]; rfl
  · intro hmode; rw [h1, hmode]; rfl
  · cases hf : s.frameRate with
    | none => simp [getDesiredFrameRate, ScheduleState.usingDefaultFrameRate, hf]
    | some r =>
      have hr := hw r hf
      simp [getDesiredFrameRate, ScheduleState.usingDefaultFrameRate, hf, ne_of_gt hr]

/-- Witness for C9 at an explicitly set rate of 60 in RealTime mode. -/
theorem claim_C9_witness :
    (∀ r : ℚ, ({ initialState with mode := Mode.RealTime, frameRate := some 60 } :
      ScheduleState).frameRate = some r → 0 < r) ∧
    (setDesiredFrameRate { initialState with mode := Mode.RealTime, frameRate := some 60 }
      0).effectiveFrameRate = some 30 :=
  ⟨by intro r hr; cases hr; norm_num,
   (claim_C9 { initialState with mode := Mode.RealTime, frameRate := some 60 }
      (by intro r hr; cases hr; norm_num)).2.1 rfl⟩

/-- Setting the desired buffer length to a nonnegative time yields the
frame-rounded capacity at the effective rate. -/
theorem actualFrames_of_set (s : ScheduleState) (r d : ℚ) (hr : s.effectiveFrameRate = some r)
    (hd : 0 ≤ d) :
    getActualBufferLengthInFrames (setDesiredBufferLengthInSec s d) =
      if d ≤ 0 then 0 else max 1 (round (d * r)).toNat := by
  unfold setDesiredBufferLengthInSec
  rw [if_neg (not_lt.mpr hd)]
  have h2 : ({ s with bufferLengthSec := some d } : ScheduleState).effectiveFrameRate =
      some r := hr
  simp only [getActualBufferLengthInFrames, h2, getDesiredBufferLengthInSec, Option.getD_some]

/-- C5: the actual buffer capacity in frames is round(desired/frameInterval),
clamped to at least 1 when the desired time is positive and 0 when it is 0;
at 30 frames/sec a desired length of 0.15 s gives 5 frames (hence 4 or 5),
and a desired length of 0 gives 0 frames. -/
theorem claim_C5 (s : ScheduleState) (h30 : s.effectiveFrameRate = some 30) :
    getActualBufferLengthInFrames (setDesiredBufferLengthInSec s (15/100)) = 5 ∧
    (getActualBufferLengthInFrames (setDesiredBufferLengthInSec s (15/100)) = 4 ∨
      getActualBufferLengthInFrames (setDesiredBufferLengthInSec s (15/100)) = 5) ∧
    getActualBufferLengthInFrames (setDesiredBufferLengthInSec s 0) = 0 ∧
    (∀ d : ℚ, 0 < d →
      ((getActualBufferLengthInFrames (setDesiredBufferLengthInSec s d) : ℤ) =
        max 1 (round (d / (1 / 30))) ∧
       1 ≤ getActualBufferLengthInFrames (setDesiredBufferLengthInSec s d))) := by
  have k1 : getActualBufferLengthInFrames (setDesiredBufferLengthInSec s (15/100)) = 5 := by
    rw [actualFrames_of_set s 30 (15/100) h30 (by norm_num),
      if_neg (by norm_num : ¬ (15/100 : ℚ) ≤ 0)]
    norm_num [round_eq]
    decide
  have k0 : getActualBufferLengthInFrames (setDesiredBufferLengthInSec s 0) = 0 := by
    rw [actualFrames_of_set s 30 0 h30 le_rfl, if_pos le_rfl]
  refine ⟨k1, Or.inr k1, k0, ?_⟩
  intro d hd
  have k := actualFrames_of_set s 30 d h30 hd.le
  rw [if_neg (not_le.mpr hd)] at k
  have hn : 0 ≤ round (d * (30 : ℚ)) := by
    rw [round_eq]
    refine Int.floor_nonneg.mpr ?_
    nlinarith
  constructor
  · rw [k]
    have hdiv : d / (1 / (30 : ℚ)) = d * 30 := by
      rw [div_div_eq_mul_div, div_one]
    rw [hdiv]
    rw [Nat.cast_max]
    rw [Int.toNat_of_nonneg hn]
    norm_num
  · rw [k]
    exact le_max_left 1 _

/-- Witness for C5 in RealTime mode at the default rate of 30/sec. -/
theorem claim_C5_witness :
    ({ initialState with mode := Mode.RealTime } : ScheduleState).effectiveFrameRate =
      some 30 ∧
    getActualBufferLengthInFrames
      (setDesiredBufferLengthInSec { initialState with mode := Mode.RealTime } (15/100)) = 5 :=
  ⟨rfl, (claim_C5 { initialState with mode := Mode.RealTime } rfl).1⟩

/-- C10: a negative argument to setDesiredBufferLengthInSec restores the
default buffer length (the whole number of frames closest to 150 ms at the
effective rate, within half a frame), rather than being rejected or treated
as zero. -/
theorem claim_C10 (s : ScheduleState) (r t : ℚ) (hr : s.effectiveFrameRate = some r)
    (hrpos : 0 < r) (ht : t < 0) :
    (setDesiredBufferLengthInSec s t).bufferLengthSec = none ∧
    getDesiredBufferLengthInSec (setDesiredBufferLengthInSec s t) = 3 / 20 ∧
    getActualBufferLengthInFrames (setDesiredBufferLengthInSec s t) =
      getActualBufferLengthInFrames { s with bufferLengthSec := none } ∧
    0 < getActualBufferLengthInFrames (setDesiredBufferLengthInSec s t) ∧
    (1 / 2 ≤ 3 / 20 * r →
      |((getActualBufferLengthInFrames (setDesiredBufferLengthInSec s t) : ℚ)) - 3 / 20 * r|
        ≤ 1 / 2) := by
  have hset : setDesiredBufferLengthInSec s t = { s with bufferLengthSec := none } := by
    unfold setDesiredBufferLengthInSec
    rw [if_pos ht]
  have heff : ({ s with bufferLengthSec := none } : ScheduleState).effectiveFrameRate =
      some r := hr
  have hact : getActualBufferLengthInFrames { s with bufferLengthSec := none } =
      max 1 (round ((3 / 20) * r)).toNat := by
    simp only [getActualBufferLengthInFrames, heff, getDesiredBufferLengthInSec,
      Option.getD_none, defaultBufferLengthSec]
    rw [if_neg (by norm_num : ¬ (3 / 20 : ℚ) ≤ 0)]
  refine ⟨by rw [hset], by rw [hset]; rfl, by rw [hset], ?_, ?_⟩
  · rw [hset, hact]
    exact lt_of_lt_of_le zero_lt_one (le_max_left 1 _)
  · intro hhalf
    rw [hset, hact]
    have hn1 : 1 ≤ round ((3 / 20 : ℚ) * r) := by
      rw [round_eq]
      refine Int.le_floor.mpr ?_
      push_cast
      linarith
    have hn0 : 0 ≤ round ((3 / 20 : ℚ) * r) := le_trans zero_le_one hn1
    have hmax : max 1 (round ((3 / 20 : ℚ) * r)).toNat = (round ((3 / 20 : ℚ) * r)).toNat := by
      refine max_eq_right ?_
      have := Int.toNat_of_nonneg hn0
      omega
    rw [hmax]
    have hcast : (((round ((3 / 20 : ℚ) * r)).toNat : ℕ) : ℚ) =
        ((round ((3 / 20 : ℚ) * r) : ℤ) : ℚ) := by
      exact_mod_cast Int.toNat_of_nonneg hn0
    rw [hcast, abs_sub_comm]
    exact abs_sub_round _

/-- Witness for C10: a negative request at the RealTime default rate 30. -/
theorem claim_C10_witness :
    ({ initialState with mode := Mode.RealTime } : ScheduleState).effectiveFrameRate =
      some 30 ∧ (0 : ℚ) < 30 ∧ (-1 : ℚ) < 0 ∧
    getDesiredBufferLengthInSec
      (setDesiredBufferLengthInSec { initialState with mode := Mode.RealTime } (-1)) = 3 / 20 :=
  ⟨rfl, by norm_num, by norm_num,
   (claim_C10 { initialState with mode := Mode.RealTime } 30 (-1) rfl (by norm_num)
      (by norm_num)).2.1⟩

/-- C3 counterexample: in RealTime mode a frame that arrives before the next
scheduled frame's simulated time (here at simulated time 1/100 while the
next frame time is 1/30) is dropped by `report` — it is reported, the dropped
counter increments, and it is never dispatched even though the run ends with
an empty buffer after a flush.  RealTime `report` does drop frames. -/
theorem claim_C3_counterexample :
    (⟨1/100, 2⟩ : Frame) ∈ reportedFrames
        [Ev.rep 0 ⟨0, 1⟩, Ev.rep 0 ⟨1/100, 2⟩, Ev.flush 1] ∧
    (run { initialState with mode := Mode.RealTime }
        [Ev.rep 0 ⟨0, 1⟩, Ev.rep 0 ⟨1/100, 2⟩, Ev.flush 1]).2.map Prod.snd = [⟨0, 1⟩] ∧
    (run { initialState with mode := Mode.RealTime }
        [Ev.rep 0 ⟨0, 1⟩, Ev.rep 0 ⟨1/100, 2⟩, Ev.flush 1]).1.buffer = [] ∧
    (run { initialState with mode := Mode.RealTime }
        [Ev.rep 0 ⟨0, 1⟩, Ev.rep 0 ⟨1/100, 2⟩, Ev.flush 1]).1.numDropped = 1 ∧
    (⟨1/100, 2⟩ : Frame) ∉ ((run { initialState with mode := Mode.RealTime }
        [Ev.rep 0 ⟨0, 1⟩, Ev.rep 0 ⟨1/100, 2⟩, Ev.flush 1]).2.map Prod.snd) := by
  norm_num [run, step, report, reportRealTime, acceptsRT, dispatchReady, flushFrames,
    reportedFrames, initialState, ScheduleState.rate, ScheduleState.effectiveFrameRate,
    defaultFrameRate, targetRealTime, Frame.mk.injEq]

/-- C3 (amended): In RealTime mode `report` may block (buffer backpressure)
but never loses an accepted frame: over any run from an empty buffer the
dispatched frames followed by the still-buffered frames are exactly the
accepted frames, in order.  However a frame arriving before the next
scheduled frame's simulated time is dropped by `report` itself — `report`
returns immediately, the buffer is unchanged and the dropped counter
increments — so frames reported too frequently are not dispatched. -/
theorem claim_C3_amended (s : ScheduleState) (evs : List Ev) (now : ℚ) (f : Frame)
    (hm : s.mode = Mode.RealTime) (hb : s.buffer = []) :
    (run s evs).2.map Prod.snd ++ (run s evs).1.buffer = acceptedRT s evs ∧
    (acceptsRT s f = false →
      (report s now f).state.buffer = s.buffer ∧
      (report s now f).dispatched = [] ∧
      (report s now f).returnTime = now ∧
      (report s now f).state.numDropped = s.numDropped + 1) ∧
    (acceptsRT s f = true →
      (report s now f).state.buffer = s.buffer ++ [f] ∧
      (report s now f).state.numDropped = s.numDropped) := by
  refine ⟨?_, ?_, ?_⟩
  · have h := realTime_conservation s evs hm
    rwa [hb, List.nil_append] at h
  · intro hacc
    rw [report_realTime s now f hm]
    unfold reportRealTime
    rw [if_neg (by simp [hacc])]
    exact ⟨rfl, rfl, rfl, rfl⟩
  · intro hacc
    rw [report_realTime s now f hm]
    unfold reportRealTime
    rw [if_pos hacc]
    exact ⟨rfl, rfl⟩

/-- Witness for the amended C3 at a concrete RealTime run. -/
theorem claim_C3_amended_witness :
    ({ initialState with mode := Mode.RealTime } : ScheduleState).buffer = [] ∧
    (run { initialState with mode := Mode.RealTime } [Ev.rep 0 ⟨0, 1⟩, Ev.flush 1]).2.map
        Prod.snd
      ++ (run { initialState with mode := Mode.RealTime } [Ev.rep 0 ⟨0, 1⟩,
        Ev.flush 1]).1.buffer
      = acceptedRT { initialState with mode := Mode.RealTime } [Ev.rep 0 ⟨0, 1⟩, Ev.flush 1] :=
  ⟨rfl, (claim_C3_amended { initialState with mode := Mode.RealTime }
    [Ev.rep 0 ⟨0, 1⟩, Ev.flush 1] 0 ⟨0, 9⟩ rfl rfl).1⟩

/-- C6 counterexample: in RealTime mode, after a `report` whose frame is
dropped for arriving too frequently, `flushFrames` returns with an empty
buffer although that frame — previously supplied via `report` — was never
dispatched, neither by the reports nor by the flush.  `flushFrames` waits
only for the buffered frames, not for every frame supplied via `report`. -/
theorem claim_C6_counterexample :
    (flushFrames (report (report { initialState with mode := Mode.RealTime } 0
        ⟨0, 3⟩).state 0 ⟨1/50, 4⟩).state 2).1.buffer = [] ∧
    (report { initialState with mode := Mode.RealTime } 0 ⟨0, 3⟩).dispatched = [] ∧
    (report (report { initialState with mode := Mode.RealTime } 0 ⟨0, 3⟩).state 0
      ⟨1/50, 4⟩).dispatched = [] ∧
    (report (report { initialState with mode := Mode.RealTime } 0 ⟨0, 3⟩).state 0
      ⟨1/50, 4⟩).state.numDropped = 1 ∧
    (⟨1/50, 4⟩ : Frame) ∉ ((flushFrames (report (report { initialState with
        mode := Mode.RealTime } 0 ⟨0, 3⟩).state 0 ⟨1/50, 4⟩).state 2).2.map Prod.snd) := by
  norm_num [report, reportRealTime, acceptsRT, flushFrames, initialState,
    ScheduleState.rate, ScheduleState.effectiveFrameRate, defaultFrameRate, targetRealTime,
    Frame.mk.injEq]

/-- C6 (amended): `flushFrames` returns immediately whenever the mode is not
RealTime or the buffer is already empty; otherwise it blocks while every
frame still held in the buffer — the accepted frames not yet dispatched — is
dispatched in order, leaving the buffer empty.  Frames dropped at `report`
are not dispatched by the flush. -/
theorem claim_C6_amended (s : ScheduleState) (now : ℚ) :
    (s.mode ≠ Mode.RealTime → flushFrames s now = (s, [])) ∧
    (s.buffer = [] → flushFrames s now = (s, [])) ∧
    (s.mode = Mode.RealTime → s.buffer ≠ [] →
      (flushFrames s now).1.buffer = [] ∧
      (flushFrames s now).2.map Prod.snd = s.buffer ∧
      (flushFrames s now).1.numRendered = s.numRendered + s.buffer.length) := by
  refine ⟨flushFrames_of_ne s now, flushFrames_of_empty s now, ?_⟩
  intro hm hb
  unfold flushFrames
  rw [if_pos ⟨hm, hb⟩]
  refine ⟨rfl, ?_, rfl⟩
  rw [List.map_map,
    show (Prod.snd ∘ fun f : Frame => (max now (targetRealTime s f.simTime), f)) = id from rfl,
    List.map_id]

/-- Witness for the amended C6: a PassThrough flush is a no-op and a RealTime
flush with one queued frame empties the buffer. -/
theorem claim_C6_amended_witness :
    flushFrames initialState 0 = (initialState, []) ∧
    (flushFrames { initialState with mode := Mode.RealTime, buffer := [⟨0, 1⟩] } 0).1.buffer
      = [] :=
  ⟨(claim_C6_amended initialState 0).1 (by decide),
   ((claim_C6_amended { initialState with mode := Mode.RealTime, buffer := [⟨0, 1⟩] } 0).2.2
      rfl (List.cons_ne_nil _ _)).1⟩

end SimbodyViz
